import Mathlib

/-
Verification of the nextclade_latch workflow (src/wf/__init__.py).

The repository wires three pipeline steps — database fetch (get_database),
per-sample input fan-out (prepare_nextclade_inputs) and a per-sample
subprocess invocation (run_nextclade) — into a workflow (nextclade).
External collaborators (the nextclade binary, the Latch platform
primitives map_task / message / LatchDir / LatchFile, the filesystem)
are modelled explicitly: the external tool is an oracle mapping each
spawned command line to an exit code and the list of lines its combined
stdout+stderr stream yields, and each task additionally records the
command lines it spawned and the platform messages it emitted.
-/

namespace NextcladeLatch

/-- Model of latch.types.LatchFile: a local path and a remote path. -/
structure LatchFile where
  local_path : String
  remote_path : String
deriving DecidableEq, Repr

/-- Model of latch.types.LatchDir: a local path and a remote path. -/
structure LatchDir where
  local_path : String
  remote_path : String
deriving DecidableEq, Repr

/-- Sample dataclass (src/wf/__init__.py lines 24-28): a display name and a FASTA file. -/
structure Sample where
  name : String
  fasta : LatchFile
deriving DecidableEq, Repr

/-- Database enum (src/wf/__init__.py lines 31-39). -/
inductive Database where
  | sars_cov_2
  | MPXV
  | hMPXV
  | hMPXV_B1
  | flu_h1n1pdm_ha
  | flu_h3n2_ha
  | flu_vic_ha
  | flu_yam_ha
deriving DecidableEq, Repr

/-- The string value of each Database member (src/wf/__init__.py lines 31-39). -/
def Database.value : Database → String
  | .sars_cov_2 => "sars-cov-2"
  | .MPXV => "MPXV"
  | .hMPXV => "hMPXV"
  | .hMPXV_B1 => "hMPXV_B1"
  | .flu_h1n1pdm_ha => "flu_h1n1pdm_ha"
  | .flu_h3n2_ha => "flu_h3n2_ha"
  | .flu_vic_ha => "flu_vic_ha"
  | .flu_yam_ha => "flu_yam_ha"

/-- NextcladeInput dataclass (src/wf/__init__.py lines 117-122). -/
structure NextcladeInput where
  name : String
  fasta : LatchFile
  database : LatchDir
deriving DecidableEq, Repr

/-- A platform message emitted via latch.message (level, title, body). -/
structure Msg where
  level : String
  title : String
  body : String
deriving DecidableEq, Repr

/-- Python exceptions that the modelled code can raise. -/
inductive PyError where
  | runtimeError
  | indexError
deriving DecidableEq, Repr

/-- Behaviour of one spawned process: its exit code and the list of lines
its combined stdout+stderr stream yields (as Python line iteration yields
them, each line keeping its trailing newline except possibly the last). -/
structure ProcResult where
  returncode : Int
  lines : List String
deriving DecidableEq, Repr

/-- Execution environment of a task: the working directory and the
external tool as an oracle from a command line to its process behaviour. -/
structure Env where
  cwd : String
  tool : List String → ProcResult

/-- Model of pathlib Path(p).resolve(): the absolute path of the relative
path p with respect to the working directory. -/
def pathResolve (cwd : String) (p : String) : String :=
  cwd ++ "/" ++ p

/-- Model of _capture_output (src/wf/__init__.py lines 67-84): returns the
exit code and the captured lines of the combined stream joined with a
newline separator (the join on line 84 is applied to lines that already
keep their own trailing newline). -/
def _capture_output (tool : List String → ProcResult) (command : List String) :
    Int × String :=
  let r := tool command
  (r.returncode, String.intercalate "\n" r.lines)

/-- Characters of the literal part of the regex pattern "Message.*". -/
def messagePat : List Char :=
  "Message".data

/-- Splits a character list at every newline, as the dot of the regex
pattern "Message.*" never crosses a newline. -/
def splitOnNl : List Char → List (List Char)
  | [] => [[]]
  | c :: cs =>
    match splitOnNl cs with
    | [] => [[]]
    | l :: ls => if c = '\n' then [] :: l :: ls else (c :: l) :: ls

/-- The suffix of a line starting at the first occurrence of "Message",
or none when the line has no such occurrence. -/
def sufFromMessage : List Char → Option (List Char)
  | [] => none
  | c :: cs =>
    if List.isPrefixOf messagePat (c :: cs) then some (c :: cs)
    else sufFromMessage cs

/-- Model of re.findall applied to the pattern "Message.*": within each
line, the first occurrence of the literal "Message" begins a match that
greedily extends to the end of the line; matching resumes after it, so
each line contributes at most one match. -/
def findallMessage (s : String) : List String :=
  (splitOnNl s.data).filterMap fun line =>
    (sufFromMessage line).map fun l => String.mk l

/-- The command line built by run_nextclade (src/wf/__init__.py lines 147-155). -/
def nextcladeRunCommand (nc_input : NextcladeInput) : List String :=
  ["nextclade", "run", "--input-dataset", nc_input.database.local_path,
   "--output-all", nc_input.name, nc_input.fasta.local_path]

/-- The command line built by get_database (src/wf/__init__.py lines 94-102). -/
def datasetGetCommand (database_name : Database) : List String :=
  ["nextclade", "dataset", "get", "--name", database_name.value,
   "--output-dir", "nextclade_database/" ++ database_name.value]

instance (ε α : Type) [DecidableEq ε] [DecidableEq α] :
    DecidableEq (Except ε α) := fun a b =>
  match a, b with
  | Except.ok x, Except.ok y =>
    if h : x = y then isTrue (by rw [h]) else isFalse (by simp [h])
  | Except.error x, Except.error y =>
    if h : x = y then isTrue (by rw [h]) else isFalse (by simp [h])
  | Except.ok _, Except.error _ => isFalse (by simp)
  | Except.error _, Except.ok _ => isFalse (by simp)

/-- Observable result of one run_nextclade invocation: the command lines it
spawned, the platform messages it emitted, and its outcome (a returned
LatchDir or a raised exception). -/
structure RunResult where
  cmds : List (List String)
  messages : List Msg
  outcome : Except PyError LatchDir
deriving DecidableEq, Repr

/-- Model of run_nextclade (src/wf/__init__.py lines 140-181). On a nonzero
exit code the source evaluates re.findall("Message.*", stdout[1]): the
scan is over the single character of the captured text at index 1, which
raises IndexError when the text is shorter than two characters. -/
def run_nextclade (env : Env) (nc_input : NextcladeInput) : RunResult :=
  let output_dirname := nc_input.name
  let remote_path := "latch:///nextclade_outputs/" ++ output_dirname
  let output_dir := pathResolve env.cwd output_dirname
  let cmd := nextcladeRunCommand nc_input
  let captured := _capture_output env.tool cmd
  let return_code := captured.1
  let stdout := captured.2
  let running_cmd := String.intercalate " " cmd
  let infoMsg : Msg :=
    ⟨"info", "Executing NextClade for " ++ nc_input.name, running_cmd⟩
  if return_code ≠ 0 then
    match stdout.data[1]? with
    | none => ⟨[cmd], [infoMsg], Except.error PyError.indexError⟩
    | some c =>
      let errors := findallMessage (String.mk [c])
      ⟨[cmd],
       infoMsg :: errors.map (fun e =>
         ⟨"error",
          "An error was raised while running NextClade for " ++
            nc_input.name ++ ":",
          e⟩),
       Except.error PyError.runtimeError⟩
  else
    ⟨[cmd], [infoMsg], Except.ok ⟨output_dir, remote_path⟩⟩

/-- Observable result of one get_database invocation: spawned command
lines, emitted messages, and the returned LatchDir (the source has no
failure path: the CompletedProcess of subprocess.run is discarded). -/
structure GetDbResult where
  cmds : List (List String)
  messages : List Msg
  dir : LatchDir
deriving DecidableEq, Repr

/-- Model of get_database (src/wf/__init__.py lines 87-114): builds the
dataset-get command, emits an info message, spawns the command discarding
its result, and returns the LatchDir for the database directory. -/
def get_database (env : Env) (database_name : Database) : GetDbResult :=
  let database_outname := "nextclade_database/" ++ database_name.value
  let database_outdir := pathResolve env.cwd database_outname
  let cmd := datasetGetCommand database_name
  let infoMsg : Msg :=
    ⟨"info", "Downloading NextClade database " ++ database_name.value,
     "Running command: " ++ String.join cmd⟩
  ⟨[cmd], [infoMsg], ⟨database_outdir, "latch:///" ++ database_outname ++ "/"⟩⟩

/-- Model of prepare_nextclade_inputs (src/wf/__init__.py lines 125-137):
the source loop appends one NextcladeInput per sample in order. -/
def prepare_nextclade_inputs (samples : List Sample) (database : LatchDir) :
    List NextcladeInput :=
  samples.foldl
    (fun inputs sample => inputs ++ [⟨sample.name, sample.fasta, database⟩])
    []

/-- Model of the platform primitive latch.map_task: runs the worker over
every element in order; the workflow fails when any invocation fails. -/
def map_task (f : NextcladeInput → Except PyError LatchDir) :
    List NextcladeInput → Except PyError (List LatchDir)
  | [] => Except.ok []
  | i :: is =>
    match f i, map_task f is with
    | Except.ok d, Except.ok ds => Except.ok (d :: ds)
    | Except.error e, _ => Except.error e
    | Except.ok _, Except.error e => Except.error e

/-- Model of the nextclade workflow (src/wf/__init__.py lines 184-199):
fetch the database, fan out per-sample inputs, map the worker task. -/
def nextclade (env : Env) (samples : List Sample) (database_name : Database) :
    Except PyError (List LatchDir) :=
  let database := (get_database env database_name).dir
  let nextclade_inputs := prepare_nextclade_inputs samples database
  map_task (fun i => (run_nextclade env i).outcome) nextclade_inputs

/-- Model of the pod configuration (src/wf/__init__.py lines 43-61). -/
structure Pod where
  cpuRequest : String
  memoryRequest : String
  cpuLimit : String
  memoryLimit : String
  tolerationValue : String
deriving DecidableEq, Repr

/-- Model of _get_96_spot_pod (src/wf/__init__.py lines 43-61). -/
def _get_96_spot_pod : Pod :=
  ⟨"90", "170Gi", "96", "192Gi", "cpu-96-spot"⟩

/-- A flytekit task decorator: its pod configuration and retry count. -/
structure TaskDecorator where
  task_config : Pod
  retries : Nat
deriving DecidableEq, Repr

/-- Model of large_spot_task (src/wf/__init__.py line 64):
task(task_config=_get_96_spot_pod(), retries=3). -/
def large_spot_task : TaskDecorator :=
  ⟨_get_96_spot_pod, 3⟩

/- Helper lemmas shared by the claim theorems. -/

/-- On exit code 0, run_nextclade returns the output directory reference. -/
theorem run_nextclade_outcome_zero (env : Env) (nc : NextcladeInput)
    (h : (env.tool (nextcladeRunCommand nc)).returncode = 0) :
    (run_nextclade env nc).outcome =
      Except.ok ⟨pathResolve env.cwd nc.name,
        "latch:///nextclade_outputs/" ++ nc.name⟩ := by
  unfold run_nextclade
  simp [_capture_output, h]

/-- On a nonzero exit code with captured text shorter than two characters,
run_nextclade raises IndexError at the stdout index expression. -/
theorem run_nextclade_outcome_nonzero_none (env : Env) (nc : NextcladeInput)
    (hrc : (env.tool (nextcladeRunCommand nc)).returncode ≠ 0)
    (hx : (_capture_output env.tool (nextcladeRunCommand nc)).2.data[1]? = none) :
    (run_nextclade env nc).outcome = Except.error PyError.indexError := by
  unfold run_nextclade
  simp only [_capture_output] at hx ⊢
  simp [hrc, hx]

/-- On a nonzero exit code with a captured text of at least two characters,
run_nextclade raises the generic RuntimeError. -/
theorem run_nextclade_outcome_nonzero_some (env : Env) (nc : NextcladeInput)
    (c : Char)
    (hrc : (env.tool (nextcladeRunCommand nc)).returncode ≠ 0)
    (hx : (_capture_output env.tool (nextcladeRunCommand nc)).2.data[1]? = some c) :
    (run_nextclade env nc).outcome = Except.error PyError.runtimeError := by
  unfold run_nextclade
  simp only [_capture_output] at hx ⊢
  simp [hrc, hx]

/-- run_nextclade spawns exactly its one command line, in every branch. -/
theorem run_nextclade_cmds (env : Env) (nc : NextcladeInput) :
    (run_nextclade env nc).cmds = [nextcladeRunCommand nc] := by
  simp only [run_nextclade]
  split
  · split <;> rfl
  · rfl

/-- A successful run_nextclade returns exactly the directory reference
built from the input's name (and the working directory). -/
theorem run_nextclade_ok_shape (env : Env) (nc : NextcladeInput) (d : LatchDir)
    (h : (run_nextclade env nc).outcome = Except.ok d) :
    d = ⟨pathResolve env.cwd nc.name, "latch:///nextclade_outputs/" ++ nc.name⟩ := by
  simp only [run_nextclade] at h
  split at h
  · split at h <;> simp at h
  · simp at h
    exact h.symm

/-- Folding append of singletons equals appending the mapped list. -/
theorem foldl_append_map {α β : Type} (g : α → β) :
    ∀ (l : List α) (init : List β),
      l.foldl (fun acc a => acc ++ [g a]) init = init ++ l.map g
  | [], init => by simp
  | a :: l, init => by
    simp [foldl_append_map g l]

/-- prepare_nextclade_inputs is the map sending each sample to the
NextcladeInput with its name, its fasta, and the shared database. -/
theorem prepare_eq_map (samples : List Sample) (database : LatchDir) :
    prepare_nextclade_inputs samples database =
      samples.map fun s => ⟨s.name, s.fasta, database⟩ := by
  unfold prepare_nextclade_inputs
  simpa using foldl_append_map _ samples []

/-- A successful map_task yields exactly one output per input. -/
theorem map_task_ok_length (f : NextcladeInput → Except PyError LatchDir) :
    ∀ (l : List NextcladeInput) (out : List LatchDir),
      map_task f l = Except.ok out → out.length = l.length
  | [], out, h => by
    simp only [map_task] at h
    cases h
    rfl
  | i :: is, out, h => by
    simp only [map_task] at h
    cases hf : f i with
    | error e => rw [hf] at h; cases h
    | ok d =>
      cases hm : map_task f is with
      | error e => rw [hf, hm] at h; cases h
      | ok ds =>
        rw [hf, hm] at h
        cases h
        simp [map_task_ok_length f is ds hm]

/- Concrete fixtures used by counterexamples and witnesses. -/

/-- A concrete FASTA file reference. -/
def fastaA : LatchFile := ⟨"/data/a.fasta", "latch:///a.fasta"⟩

/-- A second concrete FASTA file reference. -/
def fastaB : LatchFile := ⟨"/data/b.fasta", "latch:///b.fasta"⟩

/-- A concrete database directory reference. -/
def dbDirA : LatchDir :=
  ⟨"/work/nextclade_database/sars-cov-2", "latch:///nextclade_database/sars-cov-2/"⟩

/-- A second concrete database directory reference. -/
def dbDirB : LatchDir := ⟨"/other/db", "latch:///other/db/"⟩

/-- A concrete per-sample input. -/
def ncA : NextcladeInput := ⟨"sampleA", fastaA, dbDirA⟩

/-- A per-sample input sharing ncA's name but differing in fasta and database. -/
def ncSameName : NextcladeInput := ⟨"sampleA", fastaB, dbDirB⟩

/-- Environment whose tool always exits 0 with one output line. -/
def envOk : Env := ⟨"/work", fun _ => ⟨0, ["ok\n"]⟩⟩

/-- Environment whose tool always exits 1 producing no output at all. -/
def envFailEmpty : Env := ⟨"/work", fun _ => ⟨1, []⟩⟩

/-- Environment whose tool always exits 1 producing a one-character output. -/
def envFailOneChar : Env := ⟨"/work", fun _ => ⟨1, ["x"]⟩⟩

/-- Environment whose tool always exits 1 with an error-message line. -/
def envFailMessage : Env := ⟨"/work", fun _ => ⟨1, ["Message: kaboom\n"]⟩⟩

/-- Two concrete samples. -/
def sampleA : Sample := ⟨"sampleA", fastaA⟩

/-- A second concrete sample. -/
def sampleB : Sample := ⟨"sampleB", fastaB⟩

/-- A tool behaviour yielding two output lines, exit code 7. -/
def twoLineTool : List String → ProcResult := fun _ => ⟨7, ["a\n", "b\n"]⟩

/-- A tool behaviour yielding one output line, exit code 0. -/
def oneLineTool : List String → ProcResult := fun _ => ⟨0, ["ok\n"]⟩

/- Claim theorems. -/

/-- Claim C1, counterexample: the external tool exits 1 having produced no
output, and run_nextclade raises IndexError, not the generic RuntimeError
the claim names. -/
theorem run_nextclade_error_type_counterexample :
    (envFailEmpty.tool (nextcladeRunCommand ncA)).returncode = 1
  ∧ (run_nextclade envFailEmpty ncA).outcome = Except.error PyError.indexError
  ∧ (run_nextclade envFailEmpty ncA).outcome ≠ Except.error PyError.runtimeError := by
  refine ⟨rfl, rfl, ?_⟩
  decide

/-- Claim C1, amended: run_nextclade returns a directory reference exactly
on exit code 0; on a nonzero exit code it raises an error, which is the
generic RuntimeError when the captured output has at least two characters
and an IndexError otherwise. -/
theorem run_nextclade_exit_behavior (env : Env) (nc : NextcladeInput) :
    ((env.tool (nextcladeRunCommand nc)).returncode = 0 →
      (run_nextclade env nc).outcome =
        Except.ok ⟨pathResolve env.cwd nc.name,
          "latch:///nextclade_outputs/" ++ nc.name⟩)
  ∧ ((env.tool (nextcladeRunCommand nc)).returncode ≠ 0 →
      (2 ≤ (_capture_output env.tool (nextcladeRunCommand nc)).2.length →
        (run_nextclade env nc).outcome = Except.error PyError.runtimeError)
      ∧ ((_capture_output env.tool (nextcladeRunCommand nc)).2.length < 2 →
        (run_nextclade env nc).outcome = Except.error PyError.indexError)) := by
  refine ⟨run_nextclade_outcome_zero env nc, fun hrc => ⟨?_, ?_⟩⟩
  · intro hlen
    have h1 : 1 < (_capture_output env.tool (nextcladeRunCommand nc)).2.data.length := hlen
    exact run_nextclade_outcome_nonzero_some env nc _ hrc (List.getElem?_eq_getElem h1)
  · intro hlen
    have h1 : (_capture_output env.tool (nextcladeRunCommand nc)).2.data.length ≤ 1 :=
      Nat.lt_succ_iff.mp hlen
    exact run_nextclade_outcome_nonzero_none env nc hrc
      (List.getElem?_eq_none_iff.mpr h1)

/-- Claim C1 witness: a successful run and a failing run with long output,
instantiating the amended theorem. -/
theorem run_nextclade_exit_behavior_witness :
    (run_nextclade envOk ncA).outcome =
      Except.ok ⟨pathResolve envOk.cwd ncA.name,
        "latch:///nextclade_outputs/" ++ ncA.name⟩
  ∧ (run_nextclade envFailMessage ncA).outcome = Except.error PyError.runtimeError :=
  ⟨(run_nextclade_exit_behavior envOk ncA).1 (by decide),
   ((run_nextclade_exit_behavior envFailMessage ncA).2 (by decide)).1 (by decide)⟩

/-- Claim C2: with a nonzero exit and captured text "Message: kaboom\n",
the whole-text scan the claim describes would find "Message: kaboom", yet
run_nextclade emits no error message at all before raising, because the
source applies the scan to stdout[1], the single character at index 1. -/
theorem run_nextclade_scans_only_index_one :
    (envFailMessage.tool (nextcladeRunCommand ncA)).returncode = 1
  ∧ (_capture_output envFailMessage.tool (nextcladeRunCommand ncA)).2 =
      "Message: kaboom\n"
  ∧ findallMessage "Message: kaboom\n" = ["Message: kaboom"]
  ∧ (run_nextclade envFailMessage ncA).messages.filter
      (fun m => m.level = "error") = []
  ∧ (run_nextclade envFailMessage ncA).outcome = Except.error PyError.runtimeError := by
  refine ⟨rfl, rfl, by decide, by decide, rfl⟩

/-- Claim C3, counterexample: the tool exits 1 with the one-character
captured text "x"; the index expression stdout[1] is out of bounds and the
branch raises IndexError, never reaching the generic RuntimeError raise. -/
theorem stdout_index_out_of_bounds_counterexample :
    (envFailOneChar.tool (nextcladeRunCommand ncA)).returncode = 1
  ∧ (_capture_output envFailOneChar.tool (nextcladeRunCommand ncA)).2.length = 1
  ∧ (run_nextclade envFailOneChar ncA).outcome = Except.error PyError.indexError
  ∧ (Except.error PyError.indexError : Except PyError LatchDir) ≠
      Except.error PyError.runtimeError := by
  refine ⟨rfl, rfl, rfl, by decide⟩

/-- Claim C3, amended: stdout[1] is in bounds only when the captured output
has at least two characters; when the tool exits nonzero with a shorter
captured output, run_nextclade raises IndexError at the index expression
instead of reaching the generic RuntimeError raise. -/
theorem run_nextclade_short_output_index_error (env : Env) (nc : NextcladeInput)
    (hrc : (env.tool (nextcladeRunCommand nc)).returncode ≠ 0)
    (hlen : (_capture_output env.tool (nextcladeRunCommand nc)).2.length < 2) :
    (run_nextclade env nc).outcome = Except.error PyError.indexError := by
  have h1 : (_capture_output env.tool (nextcladeRunCommand nc)).2.data.length ≤ 1 :=
    Nat.lt_succ_iff.mp hlen
  exact run_nextclade_outcome_nonzero_none env nc hrc
    (List.getElem?_eq_none_iff.mpr h1)

/-- Claim C3 witness: the amended theorem instantiated at a tool exiting 1
with empty captured output. -/
theorem run_nextclade_short_output_index_error_witness :
    (run_nextclade envFailEmpty ncSameName).outcome = Except.error PyError.indexError :=
  run_nextclade_short_output_index_error envFailEmpty ncSameName
    (by decide) (by decide)

/-- Joining with a newline separator coincides with plain concatenation
for streams of at most one line. -/
theorem intercalate_eq_join_of_short (l : List String) (h : l.length ≤ 1) :
    String.intercalate "\n" l = String.join l := by
  match l with
  | [] => rfl
  | [a] =>
    rw [show String.intercalate "\n" [a] = a from rfl]
    simp [String.join]
  | a :: b :: t => simp at h

/-- Claim C4: get_database never inspects the exit code of the download
subprocess: its result is the same for any two tool behaviours, it raises
no error, and the returned LatchDir references the resolved local path
nextclade_database/(value) and the remote path
latch:///nextclade_database/(value)/. -/
theorem get_database_ignores_exit_code (env : Env) (db : Database)
    (tool1 tool2 : List String → ProcResult) (cwd : String) :
    (get_database env db).dir =
      ⟨pathResolve env.cwd ("nextclade_database/" ++ db.value),
       "latch:///nextclade_database/" ++ db.value ++ "/"⟩
  ∧ get_database ⟨cwd, tool1⟩ db = get_database ⟨cwd, tool2⟩ db := by
  cases db <;> exact ⟨rfl, rfl⟩

/-- Claim C5: prepare_nextclade_inputs returns one input per sample, in
order, carrying the sample's name and fasta unchanged and the single
shared database in every element. -/
theorem prepare_nextclade_inputs_spec (samples : List Sample) (database : LatchDir) :
    (prepare_nextclade_inputs samples database).length = samples.length
  ∧ ∀ i : Nat, (prepare_nextclade_inputs samples database)[i]? =
      (samples[i]?).map fun s => ⟨s.name, s.fasta, database⟩ := by
  rw [prepare_eq_map]
  exact ⟨by simp, fun i => by simp⟩

/-- Claim C6: the workflow is exactly the three-step composition of
get_database, prepare_nextclade_inputs, and mapping run_nextclade, and a
successful run yields one output directory reference per sample. -/
theorem nextclade_three_step_composition (env : Env) (samples : List Sample)
    (db : Database) :
    nextclade env samples db =
      map_task (fun i => (run_nextclade env i).outcome)
        (prepare_nextclade_inputs samples (get_database env db).dir)
  ∧ ∀ out : List LatchDir, nextclade env samples db = Except.ok out →
      out.length = samples.length := by
  refine ⟨rfl, fun out h => ?_⟩
  have hlen := map_task_ok_length (fun i => (run_nextclade env i).outcome)
    (prepare_nextclade_inputs samples (get_database env db).dir) out h
  rw [hlen, prepare_eq_map]
  simp

/-- Claim C6 witness: on a two-sample batch with an always-succeeding tool
the workflow yields exactly two output directory references. -/
theorem nextclade_three_step_composition_witness :
    ([⟨"/work/sampleA", "latch:///nextclade_outputs/sampleA"⟩,
      ⟨"/work/sampleB", "latch:///nextclade_outputs/sampleB"⟩] : List LatchDir).length =
      ([sampleA, sampleB] : List Sample).length :=
  (nextclade_three_step_composition envOk [sampleA, sampleB] Database.sars_cov_2).2
    [⟨"/work/sampleA", "latch:///nextclade_outputs/sampleA"⟩,
     ⟨"/work/sampleB", "latch:///nextclade_outputs/sampleB"⟩] (by decide)

/-- Claim C7: get_database spawns exactly the dataset-get command line and
run_nextclade spawns exactly the run command line stated in the claim. -/
theorem spawned_command_lines (env : Env) (db : Database) (nc : NextcladeInput) :
    (get_database env db).cmds =
      [["nextclade", "dataset", "get", "--name", db.value,
        "--output-dir", "nextclade_database/" ++ db.value]]
  ∧ (run_nextclade env nc).cmds =
      [["nextclade", "run", "--input-dataset", nc.database.local_path,
        "--output-all", nc.name, nc.fasta.local_path]] :=
  ⟨rfl, run_nextclade_cmds env nc⟩

/-- Claim C8, counterexample: with two captured lines "a\n" and "b\n",
_capture_output returns "a\n\nb\n", which differs from the verbatim
concatenation "a\nb\n" of the lines of the combined stream. -/
theorem capture_output_concat_counterexample :
    _capture_output twoLineTool ["nextclade"] = (7, "a\n\nb\n")
  ∧ String.join (twoLineTool ["nextclade"]).lines = "a\nb\n"
  ∧ ("a\n\nb\n" : String) ≠ "a\nb\n" :=
  ⟨rfl, rfl, by decide⟩

/-- Claim C8, amended: _capture_output returns the exit code paired with
the captured lines (each keeping its own trailing newline) joined with an
extra newline separator; this equals the verbatim concatenation of the
lines only when the stream yields at most one line. -/
theorem capture_output_joins_with_newline (tool : List String → ProcResult)
    (command : List String) :
    _capture_output tool command =
      ((tool command).returncode, String.intercalate "\n" (tool command).lines)
  ∧ ((tool command).lines.length ≤ 1 →
      (_capture_output tool command).2 = String.join (tool command).lines) :=
  ⟨rfl, fun h => intercalate_eq_join_of_short (tool command).lines h⟩

/-- Claim C8 witness: on a one-line stream the joined text coincides with
the concatenation. -/
theorem capture_output_joins_with_newline_witness :
    (_capture_output oneLineTool ["nextclade"]).2 =
      String.join (oneLineTool ["nextclade"]).lines :=
  (capture_output_joins_with_newline oneLineTool ["nextclade"]).2 (by decide)

/-- Claim C9: the output locations of run_nextclade depend only on the
input's name: two successful runs on inputs with equal names return
directory references with identical local paths and identical remote
paths, the remote path being latch:///nextclade_outputs/(name). -/
theorem run_nextclade_output_locations_name_only (env : Env)
    (i1 i2 : NextcladeInput) (d1 d2 : LatchDir) (hname : i1.name = i2.name)
    (h1 : (run_nextclade env i1).outcome = Except.ok d1)
    (h2 : (run_nextclade env i2).outcome = Except.ok d2) :
    d1.local_path = d2.local_path ∧ d1.remote_path = d2.remote_path
  ∧ d1.remote_path = "latch:///nextclade_outputs/" ++ i1.name := by
  have e1 := run_nextclade_ok_shape env i1 d1 h1
  have e2 := run_nextclade_ok_shape env i2 d2 h2
  subst e1
  subst e2
  simp [pathResolve, hname]

/-- A concrete output directory reference produced by run_nextclade. -/
def outW : LatchDir := ⟨"/work/sampleA", "latch:///nextclade_outputs/sampleA"⟩

/-- Claim C9 witness: two inputs sharing the name sampleA but with
different fasta and database fields produce identical output locations. -/
theorem run_nextclade_output_locations_name_only_witness :
    outW.local_path = outW.local_path ∧ outW.remote_path = outW.remote_path
  ∧ outW.remote_path = "latch:///nextclade_outputs/" ++ ncA.name :=
  run_nextclade_output_locations_name_only envOk ncA ncSameName outW outW
    rfl (by decide) (by decide)

/-- Claim C10: large_spot_task carries exactly retries = 3, and neither
worker task retries on its own: every invocation of run_nextclade and of
get_database spawns its subprocess exactly once. -/
theorem large_spot_task_retries_and_no_retry_logic :
    large_spot_task.retries = 3
  ∧ (∀ (env : Env) (nc : NextcladeInput), (run_nextclade env nc).cmds.length = 1)
  ∧ (∀ (env : Env) (db : Database), (get_database env db).cmds.length = 1) :=
  ⟨rfl, fun env nc => by rw [run_nextclade_cmds]; rfl, fun env db => rfl⟩

end NextcladeLatch
